import Mathlib

/-!
Shallow embedding of the three-stage node pipeline (parse → AST → logical)
from the demo_phases repository, together with theorems settling the
specification claims about it.

Machine integers (`int` in the source) are modelled as unbounded `Int`;
`std::stoi`'s range check is modelled explicitly against the 32-bit int
range.  `double` values (Bar's cost estimate and selectivity) are modelled
as exact rationals: the program only ever assigns the literals 10.5, 0.1
and 1.0 and multiplies by a list length, all exact in `ℚ`.
-/

namespace DemoPhases

/-! ### String helpers mirroring `std::string::find` -/

/-- Bool test that the second list occurs at the head of the first. -/
def listStartsWith : List Char → List Char → Bool
  | _, [] => true
  | [], _ :: _ => false
  | a :: as, b :: bs => a == b && listStartsWith as bs

/-- Bool test that the second list occurs somewhere inside the first,
mirroring `hay.find(needle) != std::string::npos`. -/
def listHasSub : List Char → List Char → Bool
  | [], needle => listStartsWith [] needle
  | a :: t, needle => listStartsWith (a :: t) needle || listHasSub t needle

/-- Substring containment on strings, `hay.find(needle) != npos` in the source. -/
def strHasSub (hay needle : String) : Bool :=
  listHasSub hay.data needle.data

/-- Index of the first occurrence of a character, `s.find(c)` in the source
(`none` models `npos`). -/
def cppFindChar : List Char → Char → Option Nat
  | [], _ => none
  | a :: t, c => if a == c then some 0 else (cppFindChar t c).map (· + 1)

/-! ### `std::stoi` model -/

/-- Smallest value of a 32-bit `int`. -/
def intMin : Int := -(2 ^ 31)

/-- Largest value of a 32-bit `int`. -/
def intMax : Int := 2 ^ 31 - 1

/-- Two's-complement wrap of a mathematical integer into the 32-bit `int`
range.  Signed `int` overflow in the source (e.g. `limitValue * 100` in
LimitLogicalNode::explain) is undefined behaviour in C++; it is modelled
here as the wrap a two's-complement implementation performs. -/
def wrapInt32 (n : Int) : Int :=
  (n + 2 ^ 31) % 2 ^ 32 - 2 ^ 31

/-- Multiplication carried out in `size_t` (64-bit unsigned): wraps
modulo 2^64. -/
def cppSizeTMul (a b : Nat) : Nat :=
  a * b % 2 ^ 64

/-- The `static_cast<int>` of a `size_t` value: reduce modulo 2^32 and
reinterpret the result in two's complement. -/
def cppStaticCastInt (n : Nat) : Int :=
  if n % 2 ^ 32 < 2 ^ 31 then (n % 2 ^ 32 : Int) else (n % 2 ^ 32 : Int) - 2 ^ 32

/-- The whitespace characters skipped by `strtol` (C `isspace` in the
default locale). -/
def isCppSpace (c : Char) : Bool :=
  c == ' ' || c == '\t' || c == '\n' || c == '\x0b' || c == '\x0c' || c == '\r'

/-- Value of a list of decimal digit characters. -/
def digitsToNat (ds : List Char) : Nat :=
  ds.foldl (fun a c => a * 10 + (c.toNat - 48)) 0

/-- Model of `std::stoi(s)` (base 10): skip leading whitespace, read an
optional sign, then the maximal run of decimal digits.  `none` covers both
`std::invalid_argument` (no digits) and `std::out_of_range` (value outside
the `int` range); both exceptions abort construction in the source. -/
def cppStoi (s : String) : Option Int :=
  let cs := s.data.dropWhile isCppSpace
  let sign : Int := if cs.head? = some '-' then -1 else 1
  let rest := if cs.head? = some '-' ∨ cs.head? = some '+' then cs.tail else cs
  let ds := rest.takeWhile Char.isDigit
  if ds.isEmpty then none
  else
    let n : Int := sign * (digitsToNat ds : Int)
    if intMin ≤ n ∧ n ≤ intMax then some n else none

/-! ### Parameter records (one per kind, as in the source headers) -/

/-- The `LimitParams` from include/limit_params.h, reused at every stage. -/
structure LimitParams where
  limitValue : Int
deriving Repr, DecidableEq

/-- The `SortParams` from src/ast_params/sort_params.h, reused at every stage. -/
structure SortParams where
  sortKeys : List String
  ascending : Bool
deriving Repr, DecidableEq

/-- The `SetMetadataParams` from src/ast_params/set_metadata_params.h, reused at
every stage. -/
structure SetMetadataParams where
  metaName : String
  expression : String
deriving Repr, DecidableEq

/-- The `FooAstParams` from src/ast_params/foo_ast_params.h. -/
structure FooAstParams where
  nodeType : String
  debugInfo : String
  fooSpecificData : Int
deriving Repr, DecidableEq

/-- The `BarAstParams` from src/ast_params/bar_ast_params.h. -/
structure BarAstParams where
  nodeType : String
  debugInfo : String
  barItems : List String
  barFlag : Bool
  barCostEstimate : ℚ
deriving Repr, DecidableEq

/-- The `FooLogicalParams` from src/logical_params/foo_logical_params.h. -/
structure FooLogicalParams where
  nodeType : String
  optimizationHint : String
  costMultiplier : Int
deriving Repr, DecidableEq

/-- The `BarLogicalParams` from src/logical_params/bar_logical_params.h. -/
structure BarLogicalParams where
  nodeType : String
  optimizationHint : String
  canUseIndex : Bool
  estimatedRows : Int
  selectivity : ℚ
deriving Repr, DecidableEq

/-! ### Parse layer -/

/-- The `LimitNode` (src/parse_nodes/limit_node.h): stores `limitValue`. -/
structure LimitNode where
  limitValue : Int
deriving Repr, DecidableEq

/-- The `SortNode` (src/parse_nodes/sort_node.h): stores `keys` and `asc`. -/
structure SortNode where
  keys : List String
  asc : Bool
deriving Repr, DecidableEq

/-- The `SetMetadataNode` (src/parse_nodes/set_metadata_node.h). -/
structure SetMetadataNode where
  metaName : String
  expression : String
deriving Repr, DecidableEq

/-- The `FooNode` (src/parse_nodes/foo_node.h): stores the raw argument. -/
structure FooNode where
  data : String
deriving Repr, DecidableEq

/-- The `BarNode` (src/parse_nodes/bar_node.h): stores the raw argument and the
derived item list. -/
structure BarNode where
  data : String
  items : List String
deriving Repr, DecidableEq

/-- The `LimitNode::LimitNode(arg)`: `limitValue(std::stoi(arg))`; a thrown
exception means no node is produced. -/
def LimitNode.fromArg (arg : String) : Option LimitNode :=
  (cppStoi arg).map fun n => { limitValue := n }

/-- The `SortNode::SortNode(arg)`: descending iff the argument contains the
literal `":desc"`; the keys are always the two fixed placeholders. -/
def SortNode.fromArg (arg : String) : SortNode :=
  { asc := !(strHasSub arg ":desc"), keys := ["field1", "field2"] }

/-- The `SetMetadataNode::SetMetadataNode(arg)`: split at the first `':'`
(`substr(0, pos)` / `substr(pos + 1)`), or use the `"default_meta"`
placeholder when there is no colon. -/
def SetMetadataNode.fromArg (arg : String) : SetMetadataNode :=
  match cppFindChar arg.data ':' with
  | some i => { metaName := ⟨arg.data.take i⟩, expression := ⟨arg.data.drop (i + 1)⟩ }
  | none => { metaName := "default_meta", expression := arg }

/-- The `FooNode::FooNode(arg)`: stores the argument as `data`. -/
def FooNode.fromArg (arg : String) : FooNode :=
  { data := arg }

/-- The `BarNode::BarNode(arg)`: for a nonempty argument the item list is the
argument and the argument with `"_processed"` appended. -/
def BarNode.fromArg (arg : String) : BarNode :=
  { data := arg, items := if arg.isEmpty then [] else [arg, arg ++ "_processed"] }

/-- Closed union of the parse nodes reachable through the registry. -/
inductive ParseNode where
  | limit (n : LimitNode)
  | sort (n : SortNode)
  | set_metadata (n : SetMetadataNode)
  | foo (n : FooNode)
  | bar (n : BarNode)
deriving Repr, DecidableEq

/-- The kind names registered at start-up by the `REGISTER_NODE` /
`REGISTER_PARSE_NODE` statics in the five parse-node .cpp files. -/
def registeredKinds : List String :=
  ["limit", "sort", "set_metadata", "foo", "bar"]

/-- The single error kind of the registry plus the propagated `std::stoi`
exceptions of the Limit constructor. -/
inductive PipelineError where
  | unknownKind (name : String)
  | parseFailure (kind : String)
deriving Repr, DecidableEq

/-- The `createParseNodeFromInput` (src/parse_node.cpp): look the kind name up
in the registry and run the registered factory; an unregistered name throws
`"Unknown parse node type: " + name`. -/
def createParseNodeFromInput (name arg : String) : Except PipelineError ParseNode :=
  if name = "limit" then
    match LimitNode.fromArg arg with
    | some n => .ok (.limit n)
    | none => .error (.parseFailure "limit")
  else if name = "sort" then .ok (.sort (SortNode.fromArg arg))
  else if name = "set_metadata" then .ok (.set_metadata (SetMetadataNode.fromArg arg))
  else if name = "foo" then .ok (.foo (FooNode.fromArg arg))
  else if name = "bar" then .ok (.bar (BarNode.fromArg arg))
  else .error (.unknownKind name)

/-! ### astParams (parse node → parameter record) -/

/-- The `LimitNode::astParams`. -/
def LimitNode.astParams (n : LimitNode) : LimitParams :=
  { limitValue := n.limitValue }

/-- The `SortNode::astParams`. -/
def SortNode.astParams (n : SortNode) : SortParams :=
  { sortKeys := n.keys, ascending := n.asc }

/-- The `SetMetadataNode::astParams`. -/
def SetMetadataNode.astParams (n : SetMetadataNode) : SetMetadataParams :=
  { metaName := n.metaName, expression := n.expression }

/-- The `FooNode::astParams`: the scalar payload is always the constant 42. -/
def FooNode.astParams (n : FooNode) : FooAstParams :=
  { nodeType := "foo"
    debugInfo := "FooNode from parse layer with data: " ++ n.data
    fooSpecificData := 42 }

/-- The `BarNode::astParams`: `barCostEstimate = items.size() * 10.5`. -/
def BarNode.astParams (n : BarNode) : BarAstParams :=
  { nodeType := "bar"
    debugInfo := "BarNode from parse layer with " ++ toString n.items.length ++ " items"
    barItems := n.items
    barFlag := !n.items.isEmpty
    barCostEstimate := (n.items.length : ℚ) * (21 / 2) }

/-! ### AST layer -/

/-- The `LimitAstNode` (src/ast_nodes/limit_ast_node.h): owns its params. -/
structure LimitAstNode where
  params : LimitParams
deriving Repr, DecidableEq

/-- The `SortAstNode` (src/ast_nodes/sort_ast_node.h). -/
structure SortAstNode where
  params : SortParams
deriving Repr, DecidableEq

/-- The `SetMetadataAstNode` (src/ast_nodes/set_metadata_ast_node.h). -/
structure SetMetadataAstNode where
  params : SetMetadataParams
deriving Repr, DecidableEq

/-- The `FooAstNode` (src/ast_nodes/foo_ast_node.h): copies the three fields of
`FooAstParams` (`fooData` ← `fooSpecificData`). -/
structure FooAstNode where
  nodeType : String
  debugInfo : String
  fooData : Int
deriving Repr, DecidableEq

/-- The `BarAstNode` (src/ast_nodes/bar_ast_node.h): copies the five fields of
`BarAstParams`. -/
structure BarAstNode where
  nodeType : String
  debugInfo : String
  items : List String
  flag : Bool
  costEstimate : ℚ
deriving Repr, DecidableEq

/-- The `FooAstNode(const FooAstParams&)` constructor. -/
def FooAstNode.ofParams (p : FooAstParams) : FooAstNode :=
  { nodeType := p.nodeType, debugInfo := p.debugInfo, fooData := p.fooSpecificData }

/-- The `BarAstNode(const BarAstParams&)` constructor. -/
def BarAstNode.ofParams (p : BarAstParams) : BarAstNode :=
  { nodeType := p.nodeType, debugInfo := p.debugInfo, items := p.barItems
    flag := p.barFlag, costEstimate := p.barCostEstimate }

/-- Closed union of the AST nodes of the cataloged kinds. -/
inductive AstNode where
  | limit (n : LimitAstNode)
  | sort (n : SortAstNode)
  | set_metadata (n : SetMetadataAstNode)
  | foo (n : FooAstNode)
  | bar (n : BarAstNode)
deriving Repr, DecidableEq

/-- The `parseToAst`: the Parse→AST transformer.  The source realises it with
two equivalent mechanisms — `std::visit` over the `AstParams` variant for
limit/sort/set_metadata (src/node_transformer.cpp) and the virtual
`createAstNode` for foo/bar — both build the kind's AST node from the parse
node's `astParams()`. -/
def parseToAst : ParseNode → AstNode
  | .limit n => .limit { params := n.astParams }
  | .sort n => .sort { params := n.astParams }
  | .set_metadata n => .set_metadata { params := n.astParams }
  | .foo n => .foo (FooAstNode.ofParams n.astParams)
  | .bar n => .bar (BarAstNode.ofParams n.astParams)

/-- The `LimitAstNode::logicalParams`: pass-through. -/
def LimitAstNode.logicalParams (n : LimitAstNode) : LimitParams :=
  n.params

/-- The `SortAstNode::logicalParams`: pass-through. -/
def SortAstNode.logicalParams (n : SortAstNode) : SortParams :=
  n.params

/-- The `SetMetadataAstNode::logicalParams`: pass-through. -/
def SetMetadataAstNode.logicalParams (n : SetMetadataAstNode) : SetMetadataParams :=
  n.params

/-- The `FooAstNode::logicalParams`: `costMultiplier = fooData > 0 ? 2 : 1`. -/
def FooAstNode.logicalParams (n : FooAstNode) : FooLogicalParams :=
  { nodeType := "foo"
    optimizationHint := "can_be_pushed_down"
    costMultiplier := if n.fooData > 0 then 2 else 1 }

/-- The `BarAstNode::logicalParams`: `canUseIndex = flag`,
`estimatedRows = static_cast<int>(items.size() * 100)` (a `size_t`
multiplication whose result is cast down to `int`, bar_ast_node.h:45),
`selectivity = flag ? 0.1 : 1.0`. -/
def BarAstNode.logicalParams (n : BarAstNode) : BarLogicalParams :=
  { nodeType := "bar"
    optimizationHint := if n.flag then "can_use_index" else "full_scan"
    canUseIndex := n.flag
    estimatedRows := cppStaticCastInt (cppSizeTMul n.items.length 100)
    selectivity := if n.flag then 1 / 10 else 1 }

/-! ### Logical layer -/

/-- The `LimitLogicalNode` (src/logical_nodes/limit_logical_node.h). -/
structure LimitLogicalNode where
  params : LimitParams
deriving Repr, DecidableEq

/-- The `SortLogicalNode` (src/logical_nodes/sort_logical_node.h). -/
structure SortLogicalNode where
  params : SortParams
deriving Repr, DecidableEq

/-- The `SetMetadataLogicalNode` (src/logical_nodes/set_metadata_logical_node.h). -/
structure SetMetadataLogicalNode where
  params : SetMetadataParams
deriving Repr, DecidableEq

/-- The `FooLogicalNode` (src/logical_nodes/foo_logical_node.h): copies the
fields of `FooLogicalParams`. -/
structure FooLogicalNode where
  nodeType : String
  optimizationHint : String
  costMultiplier : Int
deriving Repr, DecidableEq

/-- The `BarLogicalNode` (src/logical_nodes/bar_logical_node.h): copies the
fields of `BarLogicalParams`. -/
structure BarLogicalNode where
  nodeType : String
  optimizationHint : String
  canUseIndex : Bool
  estimatedRows : Int
  selectivity : ℚ
deriving Repr, DecidableEq

/-- The `FooLogicalNode(const FooLogicalParams&)` constructor. -/
def FooLogicalNode.ofParams (p : FooLogicalParams) : FooLogicalNode :=
  { nodeType := p.nodeType, optimizationHint := p.optimizationHint
    costMultiplier := p.costMultiplier }

/-- The `BarLogicalNode(const BarLogicalParams&)` constructor. -/
def BarLogicalNode.ofParams (p : BarLogicalParams) : BarLogicalNode :=
  { nodeType := p.nodeType, optimizationHint := p.optimizationHint
    canUseIndex := p.canUseIndex, estimatedRows := p.estimatedRows
    selectivity := p.selectivity }

/-- Closed union of the logical nodes of the cataloged kinds. -/
inductive LogicalNode where
  | limit (n : LimitLogicalNode)
  | sort (n : SortLogicalNode)
  | set_metadata (n : SetMetadataLogicalNode)
  | foo (n : FooLogicalNode)
  | bar (n : BarLogicalNode)
deriving Repr, DecidableEq

/-- The `astToLogical` (src/ast_to_logical_transformer.cpp): delegates to each
AST node's `createLogicalNode`, which builds the kind's logical node from
`logicalParams()`. -/
def astToLogical : AstNode → LogicalNode
  | .limit n => .limit { params := n.logicalParams }
  | .sort n => .sort { params := n.logicalParams }
  | .set_metadata n => .set_metadata { params := n.logicalParams }
  | .foo n => .foo (FooLogicalNode.ofParams n.logicalParams)
  | .bar n => .bar (BarLogicalNode.ofParams n.logicalParams)

/-! ### explain() -/

/-- The `LimitLogicalNode::explain`; `params.limitValue * 100` is an
`int` multiplication (limit_logical_node.h:22), so it wraps for large row
limits. -/
def LimitLogicalNode.explain (n : LimitLogicalNode) : String :=
  "LOGICAL_PLAN:\n  Operation: Limit\n  " ++
    ("Row Limit: " ++ toString n.params.limitValue) ++ "\n  " ++
    ("Estimated Memory: " ++ toString (wrapInt32 (n.params.limitValue * 100)) ++ " bytes")

/-- The `params.sortKeys.size() * 200` cost figure of
SortLogicalNode::explain (sort_logical_node.h:30): `size_t` arithmetic,
wrapping modulo 2^64. -/
def SortLogicalNode.estimatedCost (n : SortLogicalNode) : Nat :=
  n.params.sortKeys.length * 200 % 2 ^ 64

/-- The `SortLogicalNode::explain`; the loop over the keys prints them
separated by `", "`. -/
def SortLogicalNode.explain (n : SortLogicalNode) : String :=
  "LOGICAL_PLAN:\n  Operation: Sort\n  Sort Keys: [" ++
    String.intercalate ", " n.params.sortKeys ++ "]\n  " ++
    ("Direction: " ++ if n.params.ascending then "ASCENDING" else "DESCENDING") ++ "\n  " ++
    ("Algorithm: " ++ if n.params.sortKeys.length > 3 then "External Sort" else "QuickSort") ++
    "\n  " ++
    ("Estimated Cost: " ++ toString n.estimatedCost ++ " units")

/-- The `SetMetadataLogicalNode::explain`. -/
def SetMetadataLogicalNode.explain (n : SetMetadataLogicalNode) : String :=
  "LOGICAL_PLAN:\n  Operation: SetMetadata\n  Metadata Name: " ++
    n.params.metaName ++ "\n  Expression: " ++ n.params.expression ++
    "\n  Side Effects: Yes (metadata write)\n  " ++ "Estimated Cost: 10 units"

/-- The `FooLogicalNode::explain`: `totalCost = 100 * costMultiplier`. -/
def FooLogicalNode.explain (n : FooLogicalNode) : String :=
  "LOGICAL_PLAN:\n  Operation: FooOperation\n  Type: " ++ n.nodeType ++
    "\n  Optimization: " ++ n.optimizationHint ++
    "\n  Cost Multiplier: " ++ toString n.costMultiplier ++ "\n  " ++
    ("Estimated Cost: " ++ toString (100 * n.costMultiplier) ++ " units")

/-- Default `operator<<` formatting of a `double`, modelled for the values
this program ever streams in an explain report: the selectivity is only
ever the literal 0.1 or 1.0, printed as "0.1" and "1". -/
def cppFormatDouble (q : ℚ) : String :=
  if q.den = 1 then toString q.num
  else if q = 1 / 10 then "0.1"
  else toString q

/-- The `BarLogicalNode::explain`: `estimatedCost = canUseIndex ? 50 : 200`. -/
def BarLogicalNode.explain (n : BarLogicalNode) : String :=
  "LOGICAL_PLAN:\n  Operation: BarOperation\n  Type: " ++ n.nodeType ++
    "\n  Optimization: " ++ n.optimizationHint ++ "\n  " ++
    ("Index Available: " ++ if n.canUseIndex then "Yes" else "No") ++
    "\n  Estimated Rows: " ++ toString n.estimatedRows ++
    "\n  Selectivity: " ++ cppFormatDouble n.selectivity ++ "\n  " ++
    ("Estimated Cost: " ++ toString (if n.canUseIndex then (50 : Int) else 200) ++ " units")

/-- Dispatch of the virtual `explain()`. -/
def LogicalNode.explain : LogicalNode → String
  | .limit n => n.explain
  | .sort n => n.explain
  | .set_metadata n => n.explain
  | .foo n => n.explain
  | .bar n => n.explain

/-! ### Kinds and the end-to-end pipeline -/

/-- The node kinds of the catalog. -/
inductive Kind where
  | limit
  | sort
  | set_metadata
  | foo
  | bar
deriving Repr, DecidableEq

/-- The registry name a kind is registered under. -/
def Kind.regName : Kind → String
  | .limit => "limit"
  | .sort => "sort"
  | .set_metadata => "set_metadata"
  | .foo => "foo"
  | .bar => "bar"

/-- Kind of a parse node. -/
def ParseNode.kind : ParseNode → Kind
  | .limit _ => .limit
  | .sort _ => .sort
  | .set_metadata _ => .set_metadata
  | .foo _ => .foo
  | .bar _ => .bar

/-- Kind of an AST node. -/
def AstNode.kind : AstNode → Kind
  | .limit _ => .limit
  | .sort _ => .sort
  | .set_metadata _ => .set_metadata
  | .foo _ => .foo
  | .bar _ => .bar

/-- Kind of a logical node. -/
def LogicalNode.kind : LogicalNode → Kind
  | .limit _ => .limit
  | .sort _ => .sort
  | .set_metadata _ => .set_metadata
  | .foo _ => .foo
  | .bar _ => .bar

/-- The whole pipeline of `processNode` (src/main.cpp): construct the parse
node from (kind name, argument), run both transformers, return the explain
report. -/
def runPipeline (name arg : String) : Except PipelineError String :=
  (createParseNodeFromInput name arg).map fun p => (astToLogical (parseToAst p)).explain

/-- Stated from the spec's words (for comparison with `cppStoi`, which is
the code's behaviour): a decimal integer is an optional sign followed by
one or more decimal digits and nothing else, with the evident value. -/
def specDecimalIntegerValue (s : String) : Option Int :=
  let core : Int × List Char :=
    if s.data.head? = some '-' then (-1, s.data.tail)
    else if s.data.head? = some '+' then (1, s.data.tail)
    else (1, s.data)
  if core.2 ≠ [] ∧ core.2.all Char.isDigit then
    some (core.1 * (digitsToNat core.2 : Int))
  else none

/-! ### Substring lemmas -/

theorem listStartsWith_nil_needle (xs : List Char) : listStartsWith xs [] = true := by
  cases xs <;> rfl

theorem listStartsWith_append (xs ys : List Char) : listStartsWith (xs ++ ys) xs = true := by
  induction xs with
  | nil => exact listStartsWith_nil_needle ys
  | cons a t ih => simp [listStartsWith, ih]

theorem listStartsWith_extend {hay needle : List Char} (x : List Char)
    (h : listStartsWith hay needle = true) : listStartsWith (hay ++ x) needle = true := by
  induction needle generalizing hay with
  | nil => exact listStartsWith_nil_needle _
  | cons b bs ih =>
    cases hay with
    | nil => simp [listStartsWith] at h
    | cons a t =>
      simp only [listStartsWith, Bool.and_eq_true] at h
      simp only [List.cons_append, listStartsWith, Bool.and_eq_true]
      exact ⟨h.1, ih h.2⟩

theorem listHasSub_of_startsWith {hay needle : List Char}
    (h : listStartsWith hay needle = true) : listHasSub hay needle = true := by
  cases hay with
  | nil => exact h
  | cons a t => simp [listHasSub, h]

theorem listHasSub_append_left {hay needle : List Char} (x : List Char)
    (h : listHasSub hay needle = true) : listHasSub (x ++ hay) needle = true := by
  induction x with
  | nil => simpa using h
  | cons a t ih => simp [listHasSub, ih]

theorem listHasSub_append_right {hay needle : List Char} (x : List Char)
    (h : listHasSub hay needle = true) : listHasSub (hay ++ x) needle = true := by
  induction hay with
  | nil =>
    cases needle with
    | nil => exact listHasSub_of_startsWith (listStartsWith_nil_needle x)
    | cons b bs => simp [listHasSub, listStartsWith] at h
  | cons a t ih =>
    simp only [listHasSub, Bool.or_eq_true] at h
    simp only [List.cons_append, listHasSub, Bool.or_eq_true]
    rcases h with h1 | h2
    · exact Or.inl (listStartsWith_extend x h1)
    · exact Or.inr (ih h2)

theorem strHasSub_self (s : String) : strHasSub s s = true := by
  unfold strHasSub
  exact listHasSub_of_startsWith (by simpa using listStartsWith_append s.data [])

theorem strHasSub_appLeft (x : String) {hay needle : String}
    (h : strHasSub hay needle = true) : strHasSub (x ++ hay) needle = true := by
  unfold strHasSub at h ⊢
  simpa using listHasSub_append_left x.data h

theorem strHasSub_appRight (x : String) {hay needle : String}
    (h : strHasSub hay needle = true) : strHasSub (hay ++ x) needle = true := by
  unfold strHasSub at h ⊢
  simpa using listHasSub_append_right x.data h

theorem listHasSub_singleton (xs : List Char) (c : Char) :
    listHasSub xs [c] = true ↔ c ∈ xs := by
  induction xs with
  | nil => simp [listHasSub, listStartsWith]
  | cons a t ih =>
    simp only [listHasSub, listStartsWith, listStartsWith_nil_needle, Bool.and_true,
      Bool.or_eq_true, ih, List.mem_cons]
    exact or_congr ⟨fun h => (eq_of_beq h).symm, fun h => by rw [h]; exact beq_self_eq_true a⟩
      Iff.rfl

theorem cppFindChar_eq_none_iff (xs : List Char) (c : Char) :
    cppFindChar xs c = none ↔ c ∉ xs := by
  induction xs with
  | nil => simp [cppFindChar]
  | cons a t ih =>
    by_cases hac : a = c
    · subst hac
      simp [cppFindChar]
    · simp [cppFindChar, hac, Option.map_eq_none', ih, Ne.symm hac]

theorem cppFindChar_split (xs : List Char) (c : Char) (i : ℕ)
    (h : cppFindChar xs c = some i) :
    xs.take i ++ c :: xs.drop (i + 1) = xs ∧ c ∉ xs.take i := by
  induction xs generalizing i with
  | nil => simp [cppFindChar] at h
  | cons a t ih =>
    by_cases hac : a = c
    · subst hac
      simp only [cppFindChar, beq_self_eq_true, if_pos, Option.some.injEq] at h
      subst h
      simp
    · simp only [cppFindChar, hac, beq_iff_eq, if_false, Option.map_eq_some'] at h
      rcases h with ⟨j, hj, rfl⟩
      rcases ih j hj with ⟨h1, h2⟩
      refine ⟨?_, ?_⟩
      · simpa [List.take_succ_cons, List.drop_succ_cons] using congrArg (a :: ·) h1
      · simp only [List.take_succ_cons, List.mem_cons, not_or]
        exact ⟨fun hh => hac hh.symm, h2⟩

/-! ### Machine-arithmetic lemmas -/

theorem wrapInt32_eq_self (n : Int) (h1 : intMin ≤ n) (h2 : n ≤ intMax) :
    wrapInt32 n = n := by
  simp only [wrapInt32, intMin, intMax] at *
  omega

theorem cppStaticCastInt_mul100_small (L : Nat) (h : L * 100 < 2 ^ 31) :
    cppStaticCastInt (cppSizeTMul L 100) = (L : Int) * 100 := by
  unfold cppSizeTMul cppStaticCastInt
  have h64 : L * 100 % 2 ^ 64 = L * 100 := Nat.mod_eq_of_lt (lt_trans h (by norm_num))
  rw [h64]
  have h32 : L * 100 % 2 ^ 32 = L * 100 := Nat.mod_eq_of_lt (lt_trans h (by norm_num))
  rw [h32, if_pos h]
  omega

theorem barEstimatedRows_mk (nt di : String) (items : List String) (fl : Bool) (ce : ℚ) :
    (BarAstNode.logicalParams ⟨nt, di, items, fl, ce⟩).estimatedRows =
      cppStaticCastInt (cppSizeTMul items.length 100) := rfl

/-! ### Claim theorems -/

/-- Claim C4: for every argument string s, the Sort parse node built from s
has ascending = false exactly when s contains the literal substring ":desc",
and always carries the two fixed placeholder keys ["field1", "field2"]
regardless of the field names in s. -/
theorem C4_sort_parse (s : String) :
    (SortNode.fromArg s).keys = ["field1", "field2"] ∧
    ((SortNode.fromArg s).asc = false ↔ strHasSub s ":desc" = true) := by
  refine ⟨rfl, ?_⟩
  simp [SortNode.fromArg]

/-- Claim C7: constructing a parse node from a kind name that was never
registered fails with UnknownKindError, producing no node. -/
theorem C7_unknown_kind (name arg : String) (h : name ∉ registeredKinds) :
    createParseNodeFromInput name arg = .error (.unknownKind name) := by
  simp only [registeredKinds, List.mem_cons, List.not_mem_nil, or_false, not_or] at h
  obtain ⟨h1, h2, h3, h4, h5⟩ := h
  simp [createParseNodeFromInput, h1, h2, h3, h4, h5]

/-- Witness for C7 at the spec's concrete input: kind "nonexistent". -/
theorem C7_unknown_kind_witness :
    "nonexistent" ∉ registeredKinds ∧
    createParseNodeFromInput "nonexistent" "x" = .error (.unknownKind "nonexistent") :=
  ⟨by decide, C7_unknown_kind "nonexistent" "x" (by decide)⟩

/-- Counterexample to claim C6 as stated: from 21,474,837 items the
`static_cast<int>(items.size() * 100)` in BarAstNode::logicalParams wraps,
so estimatedRows is −2147483596 rather than itemCount × 100 =
2147483700. -/
theorem C6_counterexample :
    (List.replicate 21474837 "x").length = 21474837 ∧
    (BarAstNode.logicalParams ⟨"bar", "dbg", List.replicate 21474837 "x", true, 0⟩).estimatedRows
      = -2147483596 ∧
    ((21474837 : Int) * 100 ≠ -2147483596) := by
  refine ⟨by rw [List.length_replicate], ?_, by decide⟩
  rw [barEstimatedRows_mk, List.length_replicate]
  decide

/-- Claim C6 (amended): BarAstNode::logicalParams sets canUseIndex to the
node's flag, estimatedRows to `static_cast<int>(itemCount * 100)` — equal
to itemCount × 100 whenever that product fits in `int`, wrapped otherwise —
and selectivity to 0.1 when the flag is set (1.0 otherwise); a Bar node
with two items and flag = true yields LogicalParams with canUseIndex =
true, estimatedRows = 200 and selectivity = 0.1, whose explain() contains
"Index Available: Yes" and "Estimated Cost: 50 units". -/
theorem C6_bar_logical (b : BarAstNode) :
    (b.logicalParams.canUseIndex = b.flag ∧
      b.logicalParams.estimatedRows = cppStaticCastInt (cppSizeTMul b.items.length 100) ∧
      b.logicalParams.selectivity = (if b.flag then 1 / 10 else 1) ∧
      (b.items.length * 100 < 2 ^ 31 →
        b.logicalParams.estimatedRows = (b.items.length : Int) * 100)) ∧
    (b.flag = true → b.items.length = 2 →
      b.logicalParams =
        { nodeType := "bar", optimizationHint := "can_use_index", canUseIndex := true
          estimatedRows := 200, selectivity := 1 / 10 } ∧
      strHasSub ((astToLogical (.bar b)).explain) "Index Available: Yes" = true ∧
      strHasSub ((astToLogical (.bar b)).explain) "Estimated Cost: 50 units" = true) := by
  refine ⟨⟨rfl, rfl, rfl, fun h => cppStaticCastInt_mul100_small b.items.length h⟩, ?_⟩
  intro hf h2
  have hrows : cppStaticCastInt (cppSizeTMul b.items.length 100) = 200 := by
    rw [h2]; decide
  have hnode : astToLogical (.bar b) = .bar ⟨"bar", "can_use_index", true, 200, 1 / 10⟩ := by
    simp [astToLogical, BarAstNode.logicalParams, BarLogicalNode.ofParams, hf, hrows]
  refine ⟨?_, ?_, ?_⟩
  · simp [BarAstNode.logicalParams, hf, hrows]
  · rw [hnode, show ("Index Available: Yes" : String) = "Index Available: " ++ "Yes" from rfl]
    simp only [LogicalNode.explain, BarLogicalNode.explain, if_true]
    apply strHasSub_appRight
    apply strHasSub_appRight
    apply strHasSub_appRight
    apply strHasSub_appRight
    apply strHasSub_appRight
    apply strHasSub_appRight
    apply strHasSub_appLeft
    exact strHasSub_self _
  · rw [hnode, show ("Estimated Cost: 50 units" : String) =
      "Estimated Cost: " ++ toString (50 : Int) ++ " units" from rfl]
    simp only [LogicalNode.explain, BarLogicalNode.explain, if_true]
    apply strHasSub_appLeft
    exact strHasSub_self _

/-- Witness for C6 at a concrete Bar AST node with two items and the flag
set, also exercising the in-range branch of the row estimate. -/
theorem C6_bar_logical_witness :
    (["x", "y"] : List String).length * 100 < 2 ^ 31 ∧
    (BarAstNode.logicalParams ⟨"bar", "dbg", ["x", "y"], true, 21⟩).estimatedRows =
      ((["x", "y"] : List String).length : Int) * 100 ∧
    BarAstNode.logicalParams ⟨"bar", "dbg", ["x", "y"], true, 21⟩ =
      { nodeType := "bar", optimizationHint := "can_use_index", canUseIndex := true
        estimatedRows := 200, selectivity := 1 / 10 } ∧
    strHasSub ((astToLogical (.bar ⟨"bar", "dbg", ["x", "y"], true, 21⟩)).explain)
      "Index Available: Yes" = true ∧
    strHasSub ((astToLogical (.bar ⟨"bar", "dbg", ["x", "y"], true, 21⟩)).explain)
      "Estimated Cost: 50 units" = true := by
  have h1 := (C6_bar_logical ⟨"bar", "dbg", ["x", "y"], true, 21⟩).1.2.2.2 (by decide)
  have h2 := (C6_bar_logical ⟨"bar", "dbg", ["x", "y"], true, 21⟩).2 rfl rfl
  exact ⟨by decide, h1, h2.1, h2.2.1, h2.2.2⟩

/-- Claim C10: the Foo parse node sets its scalar payload to the constant
42 regardless of the argument, so every Foo pipeline run has
costMultiplier = 2 and an explain() containing "Estimated Cost: 200 units";
the argument only ever reaches the debug label. -/
theorem C10_foo_constant_payload (s : String) :
    (FooNode.fromArg s).astParams.fooSpecificData = 42 ∧
    createParseNodeFromInput "foo" s = .ok (.foo ⟨s⟩) ∧
    astToLogical (parseToAst (.foo (FooNode.fromArg s))) =
      .foo ⟨"foo", "can_be_pushed_down", 2⟩ ∧
    runPipeline "foo" s =
      .ok ("LOGICAL_PLAN:\n  Operation: FooOperation\n  Type: foo\n  Optimization: " ++
        "can_be_pushed_down\n  Cost Multiplier: 2\n  Estimated Cost: 200 units") ∧
    strHasSub ("LOGICAL_PLAN:\n  Operation: FooOperation\n  Type: foo\n  Optimization: " ++
        "can_be_pushed_down\n  Cost Multiplier: 2\n  Estimated Cost: 200 units")
      "Estimated Cost: 200 units" = true := by
  exact ⟨rfl, rfl, rfl, rfl, by decide⟩

/-- Counterexample to claim C2 as stated: the argument "1000000000" is
accepted by std::stoi, but the `int` multiplication `limitValue * 100` in
LimitLogicalNode::explain wraps, so the report says "Estimated Memory:
1215752192 bytes" and not the claimed n × 100 = 100000000000 bytes. -/
theorem C2_counterexample :
    cppStoi "1000000000" = some 1000000000 ∧
    runPipeline "limit" "1000000000" = .ok ((LogicalNode.limit ⟨⟨1000000000⟩⟩).explain) ∧
    strHasSub ((LogicalNode.limit ⟨⟨1000000000⟩⟩).explain)
      "Estimated Memory: 100000000000 bytes" = false ∧
    strHasSub ((LogicalNode.limit ⟨⟨1000000000⟩⟩).explain)
      "Estimated Memory: 1215752192 bytes" = true := by
  refine ⟨rfl, rfl, by decide, by decide⟩

/-- Claim C2 (amended): every Limit pipeline run whose argument parses to
integer n produces a logical node whose explain() reports "Row Limit: n"
and an estimated memory equal to the `int`-wrapped n × 100 bytes — equal
to n × 100 whenever that product fits in `int`; in particular kind "limit"
with argument "100" yields limitValue = 100 and an explain() containing
"Row Limit: 100" and "Estimated Memory: 10000 bytes". -/
theorem C2_limit_pipeline :
    (∀ s n, cppStoi s = some n →
      createParseNodeFromInput "limit" s = .ok (.limit ⟨n⟩) ∧
      runPipeline "limit" s = .ok ((LogicalNode.limit ⟨⟨n⟩⟩).explain) ∧
      strHasSub ((LogicalNode.limit ⟨⟨n⟩⟩).explain) ("Row Limit: " ++ toString n) = true ∧
      strHasSub ((LogicalNode.limit ⟨⟨n⟩⟩).explain)
        ("Estimated Memory: " ++ toString (wrapInt32 (n * 100)) ++ " bytes") = true ∧
      (intMin ≤ n * 100 → n * 100 ≤ intMax → wrapInt32 (n * 100) = n * 100)) ∧
    createParseNodeFromInput "limit" "100" = .ok (.limit ⟨100⟩) ∧
    astToLogical (parseToAst (.limit ⟨100⟩)) = .limit ⟨⟨100⟩⟩ ∧
    strHasSub ((LogicalNode.limit ⟨⟨100⟩⟩).explain) "Row Limit: 100" = true ∧
    strHasSub ((LogicalNode.limit ⟨⟨100⟩⟩).explain) "Estimated Memory: 10000 bytes" = true := by
  constructor
  · intro s n h
    have hparse : createParseNodeFromInput "limit" s = .ok (.limit ⟨n⟩) := by
      simp [createParseNodeFromInput, LimitNode.fromArg, h]
    refine ⟨hparse, ?_, ?_, ?_, fun h1 h2 => wrapInt32_eq_self (n * 100) h1 h2⟩
    · simp only [runPipeline, hparse, Except.map]
      rfl
    · simp only [LogicalNode.explain, LimitLogicalNode.explain]
      apply strHasSub_appRight
      apply strHasSub_appRight
      apply strHasSub_appLeft
      exact strHasSub_self _
    · simp only [LogicalNode.explain, LimitLogicalNode.explain]
      apply strHasSub_appLeft
      exact strHasSub_self _
  · refine ⟨rfl, rfl, ?_, ?_⟩ <;> decide

/-- Witness for C2 at the spec's concrete input "100", also exercising the
in-range branch of the memory estimate. -/
theorem C2_limit_pipeline_witness :
    cppStoi "100" = some 100 ∧
    createParseNodeFromInput "limit" "100" = .ok (.limit ⟨100⟩) ∧
    runPipeline "limit" "100" = .ok ((LogicalNode.limit ⟨⟨100⟩⟩).explain) ∧
    strHasSub ((LogicalNode.limit ⟨⟨100⟩⟩).explain)
      ("Row Limit: " ++ toString (100 : Int)) = true ∧
    wrapInt32 ((100 : Int) * 100) = (100 : Int) * 100 := by
  have h := C2_limit_pipeline.1 "100" 100 rfl
  exact ⟨rfl, h.1, h.2.1, h.2.2.1, h.2.2.2.2 (by decide) (by decide)⟩

/-- Claim C9: for the reuse-kinds Limit, Sort and SetMetadata the parameter
record passes through both stage transitions unchanged: the AstParams built
from the parse node equal the fields stored at parse time, logicalParams()
returns them unchanged, and the logical node carries the same record. -/
theorem C9_reuse_roundtrip :
    (∀ n : LimitNode, n.astParams = ⟨n.limitValue⟩ ∧
      parseToAst (.limit n) = .limit ⟨n.astParams⟩ ∧
      LimitAstNode.logicalParams ⟨n.astParams⟩ = n.astParams ∧
      astToLogical (.limit ⟨n.astParams⟩) = .limit ⟨n.astParams⟩) ∧
    (∀ n : SortNode, n.astParams = ⟨n.keys, n.asc⟩ ∧
      parseToAst (.sort n) = .sort ⟨n.astParams⟩ ∧
      SortAstNode.logicalParams ⟨n.astParams⟩ = n.astParams ∧
      astToLogical (.sort ⟨n.astParams⟩) = .sort ⟨n.astParams⟩) ∧
    (∀ n : SetMetadataNode, n.astParams = ⟨n.metaName, n.expression⟩ ∧
      parseToAst (.set_metadata n) = .set_metadata ⟨n.astParams⟩ ∧
      SetMetadataAstNode.logicalParams ⟨n.astParams⟩ = n.astParams ∧
      astToLogical (.set_metadata ⟨n.astParams⟩) = .set_metadata ⟨n.astParams⟩) :=
  ⟨fun _ => ⟨rfl, rfl, rfl, rfl⟩, fun _ => ⟨rfl, rfl, rfl, rfl⟩,
    fun _ => ⟨rfl, rfl, rfl, rfl⟩⟩

/-- Claim C1: for every registered kind k and every argument on which
construction succeeds, both stage transformers succeed and preserve the
kind, which traces back to the registered name k. -/
theorem C1_kind_preservation (k s : String) (p : ParseNode)
    (hk : k ∈ registeredKinds) (h : createParseNodeFromInput k s = .ok p) :
    p.kind.regName = k ∧ (parseToAst p).kind = p.kind ∧
    (astToLogical (parseToAst p)).kind = p.kind := by
  simp only [registeredKinds, List.mem_cons, List.not_mem_nil, or_false] at hk
  rcases hk with rfl | rfl | rfl | rfl | rfl
  · cases hsome : LimitNode.fromArg s with
    | none => simp [createParseNodeFromInput, hsome] at h
    | some n =>
      simp only [createParseNodeFromInput, hsome, if_pos] at h
      injection h with h2
      subst h2
      exact ⟨rfl, rfl, rfl⟩
  · have hs : createParseNodeFromInput "sort" s = .ok (.sort (SortNode.fromArg s)) := rfl
    rw [hs] at h
    injection h with h2
    subst h2
    exact ⟨rfl, rfl, rfl⟩
  · have hs : createParseNodeFromInput "set_metadata" s =
        .ok (.set_metadata (SetMetadataNode.fromArg s)) := rfl
    rw [hs] at h
    injection h with h2
    subst h2
    exact ⟨rfl, rfl, rfl⟩
  · have hs : createParseNodeFromInput "foo" s = .ok (.foo (FooNode.fromArg s)) := rfl
    rw [hs] at h
    injection h with h2
    subst h2
    exact ⟨rfl, rfl, rfl⟩
  · have hs : createParseNodeFromInput "bar" s = .ok (.bar (BarNode.fromArg s)) := rfl
    rw [hs] at h
    injection h with h2
    subst h2
    exact ⟨rfl, rfl, rfl⟩

/-- Witness for C1 at kind "sort" and argument "x". -/
theorem C1_kind_preservation_witness :
    "sort" ∈ registeredKinds ∧
    createParseNodeFromInput "sort" "x" = .ok (.sort ⟨["field1", "field2"], true⟩) ∧
    ((ParseNode.sort ⟨["field1", "field2"], true⟩).kind.regName = "sort" ∧
      (parseToAst (.sort ⟨["field1", "field2"], true⟩)).kind =
        (ParseNode.sort ⟨["field1", "field2"], true⟩).kind ∧
      (astToLogical (parseToAst (.sort ⟨["field1", "field2"], true⟩))).kind =
        (ParseNode.sort ⟨["field1", "field2"], true⟩).kind) :=
  ⟨by decide, rfl, C1_kind_preservation "sort" "x" _ (by decide) rfl⟩

/-- Claim C5: a SetMetadata parse node splits its argument at the first
':' into metaName and expression, falling back to the "default_meta"
placeholder with the whole argument as expression when there is no colon;
explain() echoes both fields verbatim and contains
"Estimated Cost: 10 units"; the spec's concrete input parses to
metaName = "score", expression = "sum(user_score,daily_bonus)". -/
theorem C5_set_metadata :
    (∀ s : String,
      (strHasSub s ":" = false → SetMetadataNode.fromArg s = ⟨"default_meta", s⟩) ∧
      (strHasSub s ":" = true →
        (SetMetadataNode.fromArg s).metaName ++ ":" ++
          (SetMetadataNode.fromArg s).expression = s ∧
        strHasSub (SetMetadataNode.fromArg s).metaName ":" = false)) ∧
    (∀ p : SetMetadataParams,
      strHasSub ((LogicalNode.set_metadata ⟨p⟩).explain) p.metaName = true ∧
      strHasSub ((LogicalNode.set_metadata ⟨p⟩).explain) p.expression = true ∧
      strHasSub ((LogicalNode.set_metadata ⟨p⟩).explain) "Estimated Cost: 10 units" = true) ∧
    SetMetadataNode.fromArg "score:sum(user_score,daily_bonus)" =
      ⟨"score", "sum(user_score,daily_bonus)"⟩ := by
  refine ⟨?_, ?_, ?_⟩
  · intro s
    constructor
    · intro hno
      have hmem : ':' ∉ s.data := by
        intro hmem
        have ht := (listHasSub_singleton s.data ':').mpr hmem
        rw [show strHasSub s ":" = listHasSub s.data [':'] from rfl] at hno
        rw [ht] at hno
        simp at hno
      have hfind : cppFindChar s.data ':' = none := (cppFindChar_eq_none_iff _ _).mpr hmem
      simp [SetMetadataNode.fromArg, hfind]
    · intro hyes
      have hmem : ':' ∈ s.data := by
        rw [show strHasSub s ":" = listHasSub s.data [':'] from rfl] at hyes
        exact (listHasSub_singleton _ _).mp hyes
      obtain ⟨i, hi⟩ : ∃ i, cppFindChar s.data ':' = some i := by
        cases hf : cppFindChar s.data ':' with
        | none => exact absurd hmem ((cppFindChar_eq_none_iff _ _).mp hf)
        | some j => exact ⟨j, rfl⟩
      obtain ⟨hsplit, hnotmem⟩ := cppFindChar_split s.data ':' i hi
      have hnode : SetMetadataNode.fromArg s =
          ⟨⟨s.data.take i⟩, ⟨s.data.drop (i + 1)⟩⟩ := by
        simp [SetMetadataNode.fromArg, hi]
      rw [hnode]
      constructor
      · apply String.ext
        show s.data.take i ++ (":" : String).data ++ s.data.drop (i + 1) = s.data
        rw [show (":" : String).data = [':'] from rfl, List.append_assoc]
        exact hsplit
      · have hne : listHasSub (s.data.take i) [':'] ≠ true := fun ht =>
          hnotmem ((listHasSub_singleton _ _).mp ht)
        exact Bool.eq_false_iff.mpr hne
  · intro p
    refine ⟨?_, ?_, ?_⟩ <;> simp only [LogicalNode.explain, SetMetadataLogicalNode.explain]
    · apply strHasSub_appRight
      apply strHasSub_appRight
      apply strHasSub_appRight
      apply strHasSub_appRight
      apply strHasSub_appLeft
      exact strHasSub_self _
    · apply strHasSub_appRight
      apply strHasSub_appRight
      apply strHasSub_appLeft
      exact strHasSub_self _
    · apply strHasSub_appLeft
      exact strHasSub_self _
  · rfl

/-- Witness for C5 at the spec's concrete input. -/
theorem C5_set_metadata_witness :
    strHasSub "score:sum(user_score,daily_bonus)" ":" = true ∧
    (SetMetadataNode.fromArg "score:sum(user_score,daily_bonus)").metaName ++ ":" ++
      (SetMetadataNode.fromArg "score:sum(user_score,daily_bonus)").expression =
      "score:sum(user_score,daily_bonus)" ∧
    strHasSub (SetMetadataNode.fromArg "score:sum(user_score,daily_bonus)").metaName ":" =
      false := by
  have h := (C5_set_metadata.1 "score:sum(user_score,daily_bonus)").2 (by decide)
  exact ⟨by decide, h.1, h.2⟩

/-- Decimal digits are not whitespace and are neither sign character. -/
theorem char_digit_facts (c : Char) (h : c.isDigit = true) :
    isCppSpace c = false ∧ c ≠ '-' ∧ c ≠ '+' := by
  have h1 : c ≠ ' ' := fun hh => absurd (hh ▸ h) (by decide)
  have h2 : c ≠ '\t' := fun hh => absurd (hh ▸ h) (by decide)
  have h3 : c ≠ '\n' := fun hh => absurd (hh ▸ h) (by decide)
  have h4 : c ≠ '\x0b' := fun hh => absurd (hh ▸ h) (by decide)
  have h5 : c ≠ '\x0c' := fun hh => absurd (hh ▸ h) (by decide)
  have h6 : c ≠ '\r' := fun hh => absurd (hh ▸ h) (by decide)
  refine ⟨?_, fun hh => absurd (hh ▸ h) (by decide), fun hh => absurd (hh ▸ h) (by decide)⟩
  simp [isCppSpace, h1, h2, h3, h4, h5, h6]

/-- Behaviour of `std::stoi` on a minus sign followed by digits only. -/
theorem cppStoi_neg_digits (s : String) (t : List Char) (hdata : s.data = '-' :: t)
    (hne : t ≠ []) (hall : t.all Char.isDigit = true)
    (hlo : intMin ≤ -(digitsToNat t : Int)) (hhi : -(digitsToNat t : Int) ≤ intMax) :
    cppStoi s = some (-(digitsToNat t : Int)) := by
  have htw : t.takeWhile Char.isDigit = t :=
    List.takeWhile_eq_self_iff.mpr (List.all_eq_true.mp hall)
  have hie : t.isEmpty = false := by
    cases t with
    | nil => exact absurd rfl hne
    | cons a u => rfl
  simp [cppStoi, hdata, isCppSpace, htw, hie, hlo, hhi]

/-- Behaviour of `std::stoi` on a plus sign followed by digits only. -/
theorem cppStoi_plus_digits (s : String) (t : List Char) (hdata : s.data = '+' :: t)
    (hne : t ≠ []) (hall : t.all Char.isDigit = true)
    (hhi : (digitsToNat t : Int) ≤ intMax) :
    cppStoi s = some (digitsToNat t) := by
  have htw : t.takeWhile Char.isDigit = t :=
    List.takeWhile_eq_self_iff.mpr (List.all_eq_true.mp hall)
  have hie : t.isEmpty = false := by
    cases t with
    | nil => exact absurd rfl hne
    | cons a u => rfl
  have hlo : intMin ≤ (digitsToNat t : Int) :=
    le_trans (by decide) (Int.natCast_nonneg _)
  simp [cppStoi, hdata, isCppSpace, htw, hie, hlo, hhi]

/-- Behaviour of `std::stoi` on a bare digit string. -/
theorem cppStoi_bare_digits (s : String) (c : Char) (t : List Char)
    (hdata : s.data = c :: t) (hc : c.isDigit = true) (hall : t.all Char.isDigit = true)
    (hhi : (digitsToNat (c :: t) : Int) ≤ intMax) :
    cppStoi s = some (digitsToNat (c :: t)) := by
  obtain ⟨hsp, hminus, hplus⟩ := char_digit_facts c hc
  have htw : (c :: t).takeWhile Char.isDigit = c :: t :=
    List.takeWhile_eq_self_iff.mpr (by
      intro x hx
      rcases List.mem_cons.mp hx with rfl | hx
      · exact hc
      · exact List.all_eq_true.mp hall x hx)
  have hlo : intMin ≤ (digitsToNat (c :: t) : Int) :=
    le_trans (by decide) (Int.natCast_nonneg _)
  simp [cppStoi, hdata, hsp, hminus, hplus, htw, hlo, hhi]

/-- Counterexample to claim C8 as stated: the argument "100abc" is not a
decimal integer, yet Limit construction succeeds (std::stoi reads the
maximal leading digit run and ignores the rest), producing a node with
row limit 100. -/
theorem C8_counterexample :
    createParseNodeFromInput "limit" "100abc" = .ok (.limit ⟨100⟩) ∧
    specDecimalIntegerValue "100abc" = none :=
  ⟨rfl, rfl⟩

/-- Amended claim C8: Limit construction fails with a parse error exactly
when std::stoi fails (no leading decimal digits after optional whitespace
and sign, or value outside the int range); when it succeeds, the row limit
is the value std::stoi reads.  In particular every in-range decimal-integer
argument yields that integer as the row limit — but trailing non-numeric
characters are ignored rather than rejected. -/
theorem C8_limit_parse_amended (s : String) :
    (cppStoi s = none →
      createParseNodeFromInput "limit" s = .error (.parseFailure "limit")) ∧
    (∀ n, cppStoi s = some n →
      createParseNodeFromInput "limit" s = .ok (.limit ⟨n⟩)) ∧
    (∀ n, specDecimalIntegerValue s = some n → intMin ≤ n → n ≤ intMax →
      cppStoi s = some n) := by
  refine ⟨?_, ?_, ?_⟩
  · intro h
    simp [createParseNodeFromInput, LimitNode.fromArg, h]
  · intro n h
    simp [createParseNodeFromInput, LimitNode.fromArg, h]
  · intro n h hlo hhi
    by_cases hm : s.data.head? = some '-'
    · simp only [specDecimalIntegerValue] at h
      simp [hm] at h
      cases hd : s.data with
      | nil => rw [hd] at hm; simp at hm
      | cons a u =>
        rw [hd] at hm h
        simp at hm
        subst hm
        simp only [List.tail_cons] at h
        obtain ⟨⟨hne0, hall0⟩, hval⟩ := h
        subst hval
        exact cppStoi_neg_digits s u hd hne0 (List.all_eq_true.mpr hall0) hlo hhi
    · by_cases hp : s.data.head? = some '+'
      · simp only [specDecimalIntegerValue] at h
        simp [hm, hp] at h
        cases hd : s.data with
        | nil => rw [hd] at hp; simp at hp
        | cons a u =>
          rw [hd] at hp h
          simp at hp
          subst hp
          simp only [List.tail_cons] at h
          obtain ⟨⟨hne0, hall0⟩, hval⟩ := h
          subst hval
          exact cppStoi_plus_digits s u hd hne0 (List.all_eq_true.mpr hall0) hhi
      · simp only [specDecimalIntegerValue] at h
        simp [hm, hp] at h
        obtain ⟨⟨hne0, hall0⟩, hval⟩ := h
        subst hval
        cases hd : s.data with
        | nil => exact absurd rfl (hd ▸ hne0)
        | cons c u =>
          have hall' : (c :: u).all Char.isDigit = true := List.all_eq_true.mpr (hd ▸ hall0)
          rw [List.all_cons, Bool.and_eq_true] at hall'
          exact cppStoi_bare_digits s c u hd hall'.1 hall'.2 (by rw [hd] at hhi; exact hhi)

/-- Witness for the amended C8 on all three branches: the non-numeric
argument "abc" fails, "100abc" succeeds with value 100, and the exact
decimal integer "-42" parses via std::stoi to -42. -/
theorem C8_limit_parse_amended_witness :
    cppStoi "abc" = none ∧
    createParseNodeFromInput "limit" "abc" = .error (.parseFailure "limit") ∧
    cppStoi "100abc" = some 100 ∧
    createParseNodeFromInput "limit" "100abc" = .ok (.limit ⟨100⟩) ∧
    specDecimalIntegerValue "-42" = some (-42) ∧
    cppStoi "-42" = some (-42) := by
  refine ⟨rfl, (C8_limit_parse_amended "abc").1 rfl,
    rfl, (C8_limit_parse_amended "100abc").2.1 100 rfl,
    rfl, (C8_limit_parse_amended "-42").2.2 (-42) rfl (by decide) (by decide)⟩

end DemoPhases
